import Mathlib

/-!
Verification of the `jail_fstab` Ansible module
(`plugins/modules/jail_fstab.py`) against its natural-language
specification.

The module's `main` function is embedded shallowly:

* `MountSpec` is one element of the module's `fstab` parameter after
  argument parsing (keys `src`, `mount`, `fstype`, `options`, `dump`,
  `fsck_pass`).
* `FstabItem` is one value of the mapping returned by the middleware
  call `jail.fstab(jail, {action: LIST})`: a `type` tag (`"SYSTEM"` or
  `"USER"`) and an `entry` list `[src, mount, fstype, options, dump,
  fsck_pass]`.  The mapping itself is a `List (Nat × FstabItem)` in the
  middleware's returned (insertion) order.
* The middleware is modelled by its responses: `iocResp` is what a call
  to `jail.get_iocroot` returns (`none` = the call raises), `listResp`
  is what `jail.fstab … LIST` returns (`none` = the call raises).  Every
  middleware call the module makes is recorded in a `List MWCall` log.
* `get_iocroot` caches its result in a process-global variable
  (`iocroot = None` at module load); `getIocrootStep` embeds one access:
  it returns the access's result, the new cache value, and whether a
  middleware call was made.  On an exception the Python `except` branch
  returns `None` without assigning the global, so nothing is cached.
* `runMain` embeds the reachable part of `main` (lines 144–240): the
  code after `module.exit_json(**result)` on line 240 is dead template
  code.  The `changes` list created on line 182 is never appended to on
  any path, and `result['changed']` is never set after its
  initialisation to `False`, so the exit state always carries
  `changed := false` and `changes := []`; the embedding reflects that
  literally.
* Python f-string interpolation of `None` yields the string `"None"`;
  `pyStr` embeds this, because `get_iocroot()` can return `None` inside
  `f"{get_iocroot()}/jails/{jail}/root/{fs['mount']}"` on line 191.
-/

/-- One desired fstab element, as parsed from the module's `fstab`
parameter (defaults `fstype="nullfs"`, `options="ro"`, `dump=0`,
`fsck_pass=0` are applied by the argument parser before `main` uses the
values, so here every field is present). -/
structure MountSpec where
  src : String
  mount : String
  fstype : String
  options : String
  dump : Int
  fsck_pass : Int
deriving DecidableEq, Repr

/-- The `entry` list `[src, mount, fstype, options, dump, fsck_pass]` of
one observed fstab item; `entry[1]` is the mount point, written `mount`
here. -/
structure FstabEntry where
  src : String
  mount : String
  fstype : String
  options : String
  dump : Int
  fsck_pass : Int
deriving DecidableEq, Repr

/-- One value of the mapping returned by `jail.fstab … LIST`:
`{"type": …, "entry": […]}`. -/
structure FstabItem where
  type : String
  entry : FstabEntry
deriving DecidableEq, Repr

/-- A middleware call made by the module.  The three mutation forms
exist in the middleware's interface (`jail.fstab` with action ADD,
REPLACE or REMOVE) and are listed so that "the module never issues a
mutation" is a non-trivial statement about the call log. -/
inductive MWCall where
  | get_iocroot
  | fstab_list (jail : String)
  | fstab_add (jail : String) (entry : FstabEntry)
  | fstab_replace (jail : String) (id : Nat) (entry : FstabEntry)
  | fstab_remove (jail : String) (id : Nat)
deriving DecidableEq, Repr

/-- Whether a middleware call is one of the three `jail.fstab` mutation
actions (ADD, REPLACE, REMOVE). -/
def MWCall.isMutation : MWCall → Bool
  | .fstab_add _ _ => true
  | .fstab_replace _ _ _ => true
  | .fstab_remove _ _ => true
  | .get_iocroot => false
  | .fstab_list _ => false

/-- A change operation, per the comment above line 182 of the source:
`{action: <action>, entry: <entry>}` with action one of `add`, `remove`,
`replace` and entry an element of the `fstab` parameter. -/
inductive Change where
  | add (entry : MountSpec)
  | remove (entry : MountSpec)
  | replace (entry : MountSpec)
deriving DecidableEq, Repr

/-- The `result` dictionary as passed to `module.exit_json` on line 240,
together with the local `changes` list at that point. -/
structure ExitState where
  changed : Bool
  msg : String
  iocroot : Option String
  fstab : List (Nat × FstabItem)
  changes : List Change
deriving DecidableEq, Repr

/-- How a run of `main` terminates: `module.fail_json` (line 165) or
`module.exit_json` (line 240). -/
inductive Outcome where
  | fail (msg : String)
  | exit (s : ExitState)
deriving DecidableEq, Repr

/-- Python f-string rendering of an optional string: `None` prints as
the four characters `None`. -/
def pyStr : Option String → String
  | none => "None"
  | some s => s

/-- Python `s.startswith(pre)`: `pre`'s character sequence is a prefix
of `s`'s. -/
def pyStartswith (s : String) (pre : String) : Bool :=
  pre.data.isPrefixOf s.data

/-- One access to `get_iocroot()` (lines 112–125).  Input: the current
value of the global `iocroot` cache and the middleware's response to
`jail.get_iocroot` (`none` = the call raises).  Output: the value
returned to the caller, the new cache value, and whether a middleware
call was made.  A cached value short-circuits (no call); a failed call
returns `None` and leaves the cache unset, so the next access retries. -/
def getIocrootStep (cache : Option String) (iocResp : Option String) :
    Option String × Option String × Bool :=
  match cache with
  | some v => (some v, some v, false)
  | none =>
    match iocResp with
    | none => (none, none, true)
    | some v => (some v, some v, true)

/-- Resolution of a mount target (lines 188–191): a target beginning
with `/` is kept unchanged; otherwise it is made absolute by literal
string concatenation, with no normalization. -/
def resolve_mount (mount : String) (root : String) (jail : String) : String :=
  if pyStartswith mount "/" then mount
  else root ++ "/jails/" ++ jail ++ "/root/" ++ mount

/-- The entry lookup on lines 203–205: the first item of the (filtered)
LIST mapping whose `entry[1]` equals the resolved target, compared
directly as strings; `None` when no item matches. -/
def findEntry (fstab_info : List (Nat × FstabItem)) (target : String) :
    Option FstabEntry :=
  (fstab_info.find? (fun kv => kv.2.entry.mount == target)).map (fun kv => kv.2.entry)

/-- The debug message appended for the lookup result (lines 207–223). -/
def entryMsg : Option FstabEntry → String
  | none => "No such entry. Need to add it.\n"
  | some _ => "This entry exists. Need to check it.\n"

/-- One iteration of the `for fs in fstab` loop (lines 184–230),
threading the iocroot cache, the middleware call log and `result['msg']`.
`get_iocroot()` is only invoked when the target is relative (line 191);
for an absolute target the root is irrelevant and no call is made.
No iteration appends to `changes`: the branches on lines 207–230 only
build messages (the add/replace logic is an unimplemented `XXX` stub). -/
def loopStep (jail : String) (iocResp : Option String)
    (fstab_info : List (Nat × FstabItem))
    (st : Option String × List MWCall × String) (fs : MountSpec) :
    Option String × List MWCall × String :=
  let msg0 := st.2.2 ++ "Checking " ++ fs.mount ++ ".\n"
  let needRoot := !(pyStartswith fs.mount "/")
  let g := if needRoot then getIocrootStep st.1 iocResp
           else ((none : Option String), st.1, false)
  let log := if g.2.2 then st.2.1 ++ [MWCall.get_iocroot] else st.2.1
  let mount_full := resolve_mount fs.mount (pyStr g.1) jail
  let msg1 := msg0 ++ "  mount_full: " ++ mount_full ++ "\n"
  let msg2 := msg1 ++ entryMsg (findEntry fstab_info mount_full)
  (g.2.1, log, msg2)

/-- The middleware call log up to and including the LIST call: the
initial `result['iocroot'] = get_iocroot()` call on line 156 (made only
when the cache is empty) followed by `jail.fstab … LIST` (line 160). -/
def initLog (cache0 : Option String) (iocResp : Option String) (jail : String) :
    List MWCall :=
  (if (getIocrootStep cache0 iocResp).2.2 then [MWCall.get_iocroot] else [])
    ++ [MWCall.fstab_list jail]

/-- The reachable body of `main` (lines 144–240).  `cache0` is the value
of the global `iocroot` at entry (`none` at process start), `iocResp`
and `listResp` are the middleware's responses.  Returns the outcome and
the full middleware call log.  If LIST raises, `module.fail_json` runs
(line 165); otherwise the SYSTEM entries are filtered out (lines
167–169), the loop runs, and `module.exit_json` runs on line 240 with
`changed` still `False` and `changes` still `[]`. -/
def runMain (cache0 : Option String) (iocResp : Option String)
    (listResp : Option (List (Nat × FstabItem)))
    (jail : String) (fstab : List MountSpec) (append : Bool) :
    Outcome × List MWCall :=
  let g0 := getIocrootStep cache0 iocResp
  match listResp with
  | none => (Outcome.fail ("Error looking up jail " ++ jail),
             initLog cache0 iocResp jail)
  | some info =>
    let fstab_info := info.filter (fun kv => kv.2.type == "USER")
    let st := fstab.foldl (loopStep jail iocResp fstab_info)
                (g0.2.1, initLog cache0 iocResp jail, "")
    (Outcome.exit
      { changed := false
        msg := st.2.2 ++ (if append then "Other fs-es may exist.\n"
                          else "Ought to delete other fs-es.\n")
        iocroot := g0.1
        fstab := fstab_info
        changes := [] },
     st.2.1)

/-- `true` iff the run ended at `module.exit_json` (line 240). -/
def isExitB : Outcome → Bool
  | .exit _ => true
  | .fail _ => false

/-- The reported `changed` flag (`false` by convention on the fail path,
where no `changed` field is reported at all). -/
def changedOf : Outcome → Bool
  | .exit s => s.changed
  | .fail _ => false

/-- The `changes` list at termination (`[]` on the fail path). -/
def changesOf : Outcome → List Change
  | .exit s => s.changes
  | .fail _ => []

/-- The filtered fstab mapping used by the matching step and reported in
`result['fstab']` (`[]` on the fail path). -/
def fstabOf : Outcome → List (Nat × FstabItem)
  | .exit s => s.fstab
  | .fail _ => []

/-! ## Helper lemmas (shared) -/

/-- A cached root value short-circuits: no middleware call, cache kept. -/
theorem getIocrootStep_cached (v : String) (iocResp : Option String) :
    getIocrootStep (some v) iocResp = (some v, some v, false) := rfl

/-- A failed lookup is not cached: the access returns `none`, makes a
middleware call, and leaves the cache empty, so the next access calls
the middleware again. -/
theorem getIocrootStep_failure_not_cached :
    getIocrootStep none none = (none, none, true)
      ∧ (getIocrootStep none none).2.1 = none := ⟨rfl, rfl⟩

theorem loopStep_log_all (jail : String) (iocResp : Option String)
    (fstab_info : List (Nat × FstabItem)) (p : MWCall → Bool)
    (hp : p MWCall.get_iocroot = true)
    (st : Option String × List MWCall × String) (fs : MountSpec)
    (h : st.2.1.all p = true) :
    ((loopStep jail iocResp fstab_info st fs).2.1).all p = true := by
  simp only [loopStep]
  split
  · split
    · simp [List.all_append, h, hp]
    · exact h
  · exact h

theorem foldl_loopStep_log_all (jail : String) (iocResp : Option String)
    (fstab_info : List (Nat × FstabItem)) (p : MWCall → Bool)
    (hp : p MWCall.get_iocroot = true) :
    ∀ (l : List MountSpec) (st : Option String × List MWCall × String),
      st.2.1.all p = true →
      ((l.foldl (loopStep jail iocResp fstab_info) st).2.1).all p = true := by
  intro l
  induction l with
  | nil => intro st h; simpa using h
  | cons fs rest ih =>
    intro st h
    simp only [List.foldl_cons]
    exact ih _ (loopStep_log_all jail iocResp fstab_info p hp st fs h)

theorem initLog_all (cache0 : Option String) (iocResp : Option String)
    (jail : String) (p : MWCall → Bool)
    (hp : p MWCall.get_iocroot = true)
    (hl : p (MWCall.fstab_list jail) = true) :
    (initLog cache0 iocResp jail).all p = true := by
  simp only [initLog]
  split <;> simp [hp, hl]

/-! ## Path resolver (claims C8, C9) -/

/-- Claim C8: for every rawTarget beginning with the path separator `/`,
the resolver of lines 188–191 returns it unchanged, for all values of
the jail root and the jail name. -/
theorem C8_absolute_passthrough (mount root jail : String)
    (h : pyStartswith mount "/" = true) :
    resolve_mount mount root jail = mount := by
  simp [resolve_mount, h]

theorem C8_witness :
    (pyStartswith "/mnt/data/my-data" "/" = true)
      ∧ resolve_mount "/mnt/data/my-data" "/mnt/pool/iocage" "j1"
          = "/mnt/data/my-data" :=
  ⟨by decide, C8_absolute_passthrough "/mnt/data/my-data" "/mnt/pool/iocage" "j1" (by decide)⟩

/-- Claim C9: for every rawTarget not beginning with `/`, the resolver
returns exactly the concatenation jailRoot ++ "/jails/" ++ jailName ++
"/root/" ++ rawTarget, with no normalization of any kind. -/
theorem C9_relative_composition (mount root jail : String)
    (h : pyStartswith mount "/" = false) :
    resolve_mount mount root jail = root ++ "/jails/" ++ jail ++ "/root/" ++ mount := by
  simp [resolve_mount, h]

theorem C9_witness :
    (pyStartswith "data/more" "/" = false)
      ∧ resolve_mount "data/more" "/mnt/pool/iocage" "j1"
          = "/mnt/pool/iocage" ++ "/jails/" ++ "j1" ++ "/root/" ++ "data/more" :=
  ⟨by decide, C9_relative_composition "data/more" "/mnt/pool/iocage" "j1" (by decide)⟩

/-! ## Matching (claim C10) -/

/-- Claim C10: the lookup on lines 203–205 compares each observed item's
stored target string `entry[1]` directly against the spec's resolved
target and takes the first item of the mapping (in the middleware's
returned order) that matches, even when later items match as well. -/
theorem C10_first_match_wins (pre post : List (Nat × FstabItem))
    (k : Nat) (v : FstabItem) (target : String)
    (hv : v.entry.mount = target)
    (hpre : ∀ kv ∈ pre, ¬(kv.2.entry.mount = target)) :
    findEntry (pre ++ (k, v) :: post) target = some v.entry := by
  induction pre with
  | nil =>
    simp only [List.nil_append, findEntry]
    rw [List.find?_cons_of_pos]
    · rfl
    · simpa using hv
  | cons hd tl ih =>
    have hhd : ((fun kv => kv.2.entry.mount == target) hd) = false := by
      simpa using hpre hd (List.mem_cons_self hd tl)
    simp only [List.cons_append, findEntry]
    rw [List.find?_cons_of_neg _ (by simp [hhd])]
    exact ih (fun kv hk => hpre kv (List.mem_cons_of_mem hd hk))

theorem C10_witness :
    ((⟨"/s2", "/t", "nullfs", "ro", 0, 0⟩ : FstabEntry).mount = "/t")
      ∧ (∀ kv ∈ ([(0, ⟨"USER", ⟨"/s1", "/a", "nullfs", "ro", 0, 0⟩⟩)] :
            List (Nat × FstabItem)), ¬(kv.2.entry.mount = "/t"))
      ∧ findEntry
          [(0, ⟨"USER", ⟨"/s1", "/a", "nullfs", "ro", 0, 0⟩⟩),
           (1, ⟨"USER", ⟨"/s2", "/t", "nullfs", "ro", 0, 0⟩⟩),
           (2, ⟨"USER", ⟨"/s3", "/t", "nullfs", "rw", 0, 0⟩⟩)] "/t"
          = some ⟨"/s2", "/t", "nullfs", "ro", 0, 0⟩ :=
  ⟨by decide, by decide,
   C10_first_match_wins
     [(0, ⟨"USER", ⟨"/s1", "/a", "nullfs", "ro", 0, 0⟩⟩)]
     [(2, ⟨"USER", ⟨"/s3", "/t", "nullfs", "rw", 0, 0⟩⟩)]
     1 ⟨"USER", ⟨"/s2", "/t", "nullfs", "ro", 0, 0⟩⟩ "/t"
     (by decide) (by decide)⟩

/-! ## Reconciliation run (claims C1–C7) -/

/-- Claim C4: on every run that reaches `module.exit_json` (any LIST
response `info`), the reported `changed` flag is `true` iff the `changes`
list is non-empty.  On this code the equivalence holds degenerately:
`changed` is never set after its initialisation to `False` and `changes`
is never appended to, so both sides are always false. -/
theorem C4_changed_iff_changes (cache0 iocResp : Option String)
    (info : List (Nat × FstabItem)) (jail : String)
    (fstab : List MountSpec) (append : Bool) :
    changedOf (runMain cache0 iocResp (some info) jail fstab append).1 = true
      ↔ changesOf (runMain cache0 iocResp (some info) jail fstab append).1 ≠ [] := by
  simp [runMain, changedOf, changesOf]

/-- Claim C5 counterexample: when the `jail.fstab … LIST` call raises,
`main` terminates at `module.fail_json` (line 165), not at the
`module.exit_json` call on line 240 — so "for every input the module
terminates at exit_json" is false as stated. -/
theorem C5_counterexample :
    isExitB (runMain none (some "/mnt/pool/iocage") none "j1" [] false).1 = false := rfl

/-- Claim C5 (amended): the middleware call log of every run contains no
`jail.fstab` mutation (ADD/REPLACE/REMOVE) — only `jail.get_iocroot` and
`jail.fstab … LIST` calls are made — and every run on which LIST
succeeds terminates at `module.exit_json` (line 240) with
`changed = False` and an empty `changes` list. -/
theorem C5_no_mutation_trivial_exit (cache0 iocResp : Option String)
    (listResp : Option (List (Nat × FstabItem))) (jail : String)
    (fstab : List MountSpec) (append : Bool) :
    ((runMain cache0 iocResp listResp jail fstab append).2.all
        (fun c => !(MWCall.isMutation c)) = true)
      ∧ (∀ info, listResp = some info →
          isExitB (runMain cache0 iocResp listResp jail fstab append).1 = true
            ∧ changedOf (runMain cache0 iocResp listResp jail fstab append).1 = false
            ∧ changesOf (runMain cache0 iocResp listResp jail fstab append).1 = []) := by
  constructor
  · cases listResp with
    | none =>
      simpa [runMain] using
        initLog_all cache0 iocResp jail (fun c => !(MWCall.isMutation c)) rfl rfl
    | some info =>
      have h0 : (initLog cache0 iocResp jail).all
          (fun c => !(MWCall.isMutation c)) = true :=
        initLog_all cache0 iocResp jail (fun c => !(MWCall.isMutation c)) rfl rfl
      simp only [runMain]
      exact foldl_loopStep_log_all jail iocResp
        (info.filter (fun kv => kv.2.type == "USER"))
        (fun c => !(MWCall.isMutation c)) rfl fstab
        ((getIocrootStep cache0 iocResp).2.1, initLog cache0 iocResp jail, "") h0
  · intro info h
    subst h
    exact ⟨rfl, rfl, rfl⟩

theorem C5_witness :
    ((runMain none (some "/r") (some []) "j1" [] false).2.all
        (fun c => !(MWCall.isMutation c)) = true)
      ∧ isExitB (runMain none (some "/r") (some []) "j1" [] false).1 = true := by
  have h := C5_no_mutation_trivial_exit none (some "/r") (some []) "j1" [] false
  exact ⟨h.1, (h.2 [] rfl).1⟩

/-- Claim C7: SYSTEM-origin entries are inert.  The mapping the matching
step searches (lines 167–169 filter it, lines 203–205 search it, and it
is what `result['fstab']` reports) contains only USER-origin items and
no SYSTEM ones, and the `changes` list contains no operation at all —
in particular none mentioning a SYSTEM entry — for any append setting. -/
theorem C7_system_entries_inert (cache0 iocResp : Option String)
    (info : List (Nat × FstabItem)) (jail : String)
    (fstab : List MountSpec) (append : Bool) :
    ((fstabOf (runMain cache0 iocResp (some info) jail fstab append).1).all
        (fun kv => kv.2.type == "USER") = true)
      ∧ ((fstabOf (runMain cache0 iocResp (some info) jail fstab append).1).all
          (fun kv => !(kv.2.type == "SYSTEM")) = true)
      ∧ changesOf (runMain cache0 iocResp (some info) jail fstab append).1 = [] := by
  refine ⟨?_, ?_, rfl⟩
  · show (info.filter (fun kv => kv.2.type == "USER")).all
        (fun kv => kv.2.type == "USER") = true
    rw [List.all_eq_true]
    intro kv hkv
    exact (List.mem_filter.mp hkv).2
  · show (info.filter (fun kv => kv.2.type == "USER")).all
        (fun kv => !(kv.2.type == "SYSTEM")) = true
    rw [List.all_eq_true]
    intro kv hkv
    have h2 : (kv.2.type == "USER") = true := (List.mem_filter.mp hkv).2
    have h3 : kv.2.type = "USER" := by simpa using h2
    rw [h3]
    decide

/-- Claim C1 (code evaluation at the failing input): a desired spec with
target `/dest` matches no observed USER entry (the observed mapping is
empty), yet the run exits with `changes = []` — no ADD operation is ever
appended; the branch on lines 207–218 only writes a debug message. -/
theorem C1_no_add_emitted :
    findEntry (([] : List (Nat × FstabItem)).filter
        (fun kv => kv.2.type == "USER")) "/dest" = none
      ∧ changesOf (runMain none (some "/mnt/pool/iocage") (some [])
          "j1" [⟨"/mnt/data/x", "/dest", "nullfs", "ro", 0, 0⟩] false).1 = []
      ∧ isExitB (runMain none (some "/mnt/pool/iocage") (some [])
          "j1" [⟨"/mnt/data/x", "/dest", "nullfs", "ro", 0, 0⟩] false).1 = true :=
  ⟨rfl, rfl, rfl⟩

/-- Claim C2 (code evaluation at the failing input): one observed
USER-origin entry is matched by no desired spec (the desired list is
empty) and `append` is false, yet the run exits with `changes = []` — no
REMOVE operation is emitted; the `append`-false branch on lines 232–238
only writes a debug message. -/
theorem C2_no_remove_emitted :
    changesOf (runMain none (some "/r")
        (some [(0, ⟨"USER", ⟨"/mnt/src", "/somewhere", "nullfs", "ro", 0, 0⟩⟩)])
        "j1" [] false).1 = []
      ∧ fstabOf (runMain none (some "/r")
          (some [(0, ⟨"USER", ⟨"/mnt/src", "/somewhere", "nullfs", "ro", 0, 0⟩⟩)])
          "j1" [] false).1
          = [(0, ⟨"USER", ⟨"/mnt/src", "/somewhere", "nullfs", "ro", 0, 0⟩⟩)] :=
  ⟨rfl, by decide⟩

/-- Claim C3 (code evaluation at the failing input): the desired spec
and the observed USER entry share the target `/dest` but differ in the
`options` field (`ro` vs `rw`), yet the run exits with `changes = []` —
no REPLACE operation is emitted; the match branch on lines 220–223 only
writes a debug message and never compares the fields. -/
theorem C3_no_replace_emitted :
    findEntry [(0, ⟨"USER", ⟨"/mnt/src", "/dest", "nullfs", "rw", 0, 0⟩⟩)] "/dest"
        = some ⟨"/mnt/src", "/dest", "nullfs", "rw", 0, 0⟩
      ∧ (⟨"/mnt/src", "/dest", "nullfs", "rw", 0, 0⟩ : FstabEntry).options
          ≠ (⟨"/mnt/src", "/dest", "nullfs", "ro", 0, 0⟩ : MountSpec).options
      ∧ changesOf (runMain none (some "/r")
          (some [(0, ⟨"USER", ⟨"/mnt/src", "/dest", "nullfs", "rw", 0, 0⟩⟩)])
          "j1" [⟨"/mnt/src", "/dest", "nullfs", "ro", 0, 0⟩] false).1 = [] :=
  ⟨by decide, by decide, rfl⟩

/-- Claim C6 (code evaluation at the failing input): when the
`jail.get_iocroot` call fails and a desired target is relative, the run
does not abort: it terminates normally at `module.exit_json` with
`changed = False`.  The call log shows the failed lookup is not cached —
the middleware is called again on the next access (two `get_iocroot`
calls) — and the resolver silently interpolates Python's `None` into the
path instead of failing with `RootUnavailable`. -/
theorem C6_lookup_failure_no_abort :
    isExitB (runMain none none (some [])
        "j1" [⟨"/mnt/s", "data/m", "nullfs", "ro", 0, 0⟩] false).1 = true
      ∧ changedOf (runMain none none (some [])
          "j1" [⟨"/mnt/s", "data/m", "nullfs", "ro", 0, 0⟩] false).1 = false
      ∧ (runMain none none (some [])
          "j1" [⟨"/mnt/s", "data/m", "nullfs", "ro", 0, 0⟩] false).2
          = [MWCall.get_iocroot, MWCall.fstab_list "j1", MWCall.get_iocroot]
      ∧ resolve_mount "data/m" (pyStr none) "j1" = "None/jails/j1/root/data/m" :=
  ⟨rfl, rfl, by decide, by decide⟩
